import Mathlib

/-!
Shallow embedding of the retrieval / answer-synthesis engine of the
`sages-oracle` repository (src/backend/utils/chunking.py,
src/backend/etl/pipeline.py, src/backend/core/rag_engine.py).

Conventions used throughout:
* Python `dict.get(k, d)` over a record with a fixed key set is modelled by
  an `Option` field plus `Option.getD d`; a bare `dict[k]` access (which can
  raise `KeyError`) is modelled in the `Option` monad.
* Python floats are modelled by `ℚ` (the numeric fineness of IEEE floats is
  irrelevant to every property considered here).
* The tokenizer (`tiktoken` in the source) is an external collaborator; it is
  modelled as a pair of functions `encode`/`decode`, exactly the interface the
  source uses.  `count_tokens` is the length of `encode`, as in the source.
* The embedding model and the LLM are external collaborators; they are
  modelled as function parameters (`embed : String → List ℚ`) and as the
  outcome of the single transport call (`Except String String`).
-/

/-! ## Chunking (src/backend/utils/chunking.py) -/

/-- Model of the `tiktoken` encoding held by `TextChunker`: a sub-word
tokenizer given by its `encode`/`decode` pair, the only interface the source
uses. -/
structure TextChunker where
  encode : String → List Nat
  decode : List Nat → String

/-- Source: `TextChunker.count_tokens`: `len(self.encoding.encode(text))`. -/
def TextChunker.count_tokens (self : TextChunker) (text : String) : Nat :=
  (self.encode text).length

/-- Python truthiness of an optional list value (`None`, a missing key and
`[]` are all falsy; a non-empty list is truthy). -/
def truthyList {α : Type} (o : Option (List α)) : Bool :=
  match o with
  | none => false
  | some [] => false
  | some (_ :: _) => true

/-- Model of a raw spell record (a JSON dict in the source).  Each field
models one key the source reads via `.get`; `none` models a missing key.
`school` models `spell_data.get('school', {}).get('name', …)`: it is the
school dict's `name` entry, `none` when either level is missing. -/
structure SpellData where
  name : Option String
  level : Option Int
  school : Option String
  casting_time : Option String
  range : Option String
  duration : Option String
  components : Option (List String)
  desc : Option (List String)
  higher_level : Option (List String)
  url : Option String

/-- Metadata attached to a spell chunk (source: the `metadata` dict built in
`chunk_spell`; `name`, `level`, `school` use `.get` without default, hence
`Option`). -/
structure SpellMeta where
  type : String
  name : Option String
  level : Option Int
  school : Option String
  source : String
  url : String
deriving DecidableEq

/-- One produced chunk of `chunk_spell`. -/
structure SpellChunk where
  text : String
  metadata : SpellMeta
  token_count : Nat
deriving DecidableEq

/-- The `desc_parts` list built by `TextChunker.chunk_spell` before joining
with newlines.  The `components` line is appended unconditionally in the
source (the `if` only guards the loop that copies the list), so it renders
the joined list, empty when the key is falsy. -/
def spellParts (sd : SpellData) : List String :=
  ["# " ++ sd.name.getD "Unknown Spell",
   "**Level:** " ++ toString (sd.level.getD 0),
   "**School:** " ++ sd.school.getD "Unknown",
   "**Casting Time:** " ++ sd.casting_time.getD "Unknown",
   "**Range:** " ++ sd.range.getD "Unknown",
   "**Duration:** " ++ sd.duration.getD "Unknown",
   "**Components:** " ++ String.intercalate ", " (sd.components.getD [])]
  ++ (if truthyList sd.desc then "\n**Description:**" :: sd.desc.getD [] else [])
  ++ (if truthyList sd.higher_level then
        "\n**At Higher Levels:**" :: sd.higher_level.getD [] else [])

/-- Source: `TextChunker.chunk_spell`. -/
def TextChunker.chunk_spell (self : TextChunker) (spell_data : SpellData) :
    SpellChunk :=
  let full_text := String.intercalate "\n" (spellParts spell_data)
  { text := full_text
    metadata :=
      { type := "spell"
        name := spell_data.name
        level := spell_data.level
        school := spell_data.school
        source := "SRD 5e"
        url := "https://www.dnd5eapi.co" ++ spell_data.url.getD "" }
    token_count := self.count_tokens full_text }

/-- Model of a list entry of `special_abilities` / `actions`: a dict whose
`name`/`desc` keys are read with `.get` and no default, so a missing key
renders as Python's `None`. -/
structure NamedDesc where
  name : Option String
  desc : Option String

/-- Python rendering of an optional string inside an f-string: a missing
value renders as `"None"`. -/
def pyOptStr (o : Option String) : String :=
  o.getD "None"

/-- Model of a raw monster record (a JSON dict in the source).  `speed` and
`challenge_rating` are modelled by their Python `str()` rendering (an opaque
string here: the source interpolates the raw value into an f-string and no
claim depends on that rendering); `armor_class` is the list of dicts whose
first element's optional `value` key the source reads. -/
structure MonsterData where
  name : Option String
  size : Option String
  type : Option String
  alignment : Option String
  armor_class : Option (List (Option Int))
  hit_points : Option Int
  speed : Option String
  challenge_rating : Option String
  strength : Option Int
  dexterity : Option Int
  constitution : Option Int
  intelligence : Option Int
  wisdom : Option Int
  charisma : Option Int
  special_abilities : Option (List NamedDesc)
  actions : Option (List NamedDesc)
  url : Option String

/-- The six fixed ability-score keys, paired with the record's value for
each, in the order the source iterates them. -/
def abilityList (md : MonsterData) : List (String × Option Int) :=
  [("strength", md.strength), ("dexterity", md.dexterity),
   ("constitution", md.constitution), ("intelligence", md.intelligence),
   ("wisdom", md.wisdom), ("charisma", md.charisma)]

/-- Python's `str.upper()` (character-wise upper-casing; all strings it is
applied to here are ASCII). -/
def pyUpper (s : String) : String :=
  String.mk (s.data.map Char.toUpper)

/-- Python's `%+d` / `{:+d}` rendering of an integer: an explicit sign is
always printed. -/
def fmtSigned (m : Int) : String :=
  if m < 0 then toString m else "+" ++ toString m

/-- One ability line of `chunk_monster`:
`f"- {ability.upper()}: {score} ({modifier:+d})"` with
`score = monster_data.get(ability, 10)` and `modifier = (score - 10) // 2`
(Python `//` is floor division, i.e. `Int.fdiv`). -/
def abilityLine (ability : String) (scoreOpt : Option Int) : String :=
  let score := scoreOpt.getD 10
  let modifier := Int.fdiv (score - 10) 2
  "- " ++ pyUpper ability ++ ": " ++ toString score
    ++ " (" ++ fmtSigned modifier ++ ")"

/-- Rendering of the armor-class value:
`monster_data.get('armor_class', [{}])[0].get('value', 'N/A')`.
The model takes the head of the list with default `none` (the source would
raise `IndexError` on a present-but-empty list; no claim touches that
corner). -/
def acValue (md : MonsterData) : String :=
  (((md.armor_class.getD [none]).headD none).map toString).getD "N/A"

/-- The `desc_parts` list built by `TextChunker.chunk_monster` before joining
with newlines.  `speed` renders Python's `str(dict)` (default `"\x7b\x7d"` =
`str({})` when missing); `challenge_rating` renders its value (default
`"N/A"`). -/
def monsterParts (md : MonsterData) : List String :=
  ["# " ++ md.name.getD "Unknown Monster",
   "*" ++ md.size.getD "" ++ " " ++ md.type.getD "" ++ ", "
     ++ md.alignment.getD "" ++ "*",
   "\n**Armor Class:** " ++ acValue md,
   "**Hit Points:** " ++ (md.hit_points.map toString).getD "N/A",
   "**Speed:** " ++ md.speed.getD "\x7b\x7d",
   "**Challenge Rating:** " ++ md.challenge_rating.getD "N/A",
   "\n**Ability Scores:**"]
  ++ (abilityList md).map (fun p => abilityLine p.1 p.2)
  ++ (if truthyList md.special_abilities then
        "\n**Special Abilities:**" ::
          (md.special_abilities.getD []).map
            (fun ab => "- **" ++ pyOptStr ab.name ++ ":** " ++ pyOptStr ab.desc)
      else [])
  ++ (if truthyList md.actions then
        "\n**Actions:**" ::
          (md.actions.getD []).map
            (fun ac => "- **" ++ pyOptStr ac.name ++ ":** " ++ pyOptStr ac.desc)
      else [])

/-- Metadata attached to a monster chunk. -/
structure MonsterMeta where
  type : String
  name : Option String
  cr : Option String
  monster_type : Option String
  size : Option String
  source : String
  url : String
deriving DecidableEq

/-- One produced chunk of `chunk_monster`. -/
structure MonsterChunk where
  text : String
  metadata : MonsterMeta
  token_count : Nat
deriving DecidableEq

/-- Source: `TextChunker.chunk_monster`. -/
def TextChunker.chunk_monster (self : TextChunker) (monster_data : MonsterData) :
    MonsterChunk :=
  let full_text := String.intercalate "\n" (monsterParts monster_data)
  { text := full_text
    metadata :=
      { type := "monster"
        name := monster_data.name
        cr := monster_data.challenge_rating
        monster_type := monster_data.type
        size := monster_data.size
        source := "SRD 5e"
        url := "https://www.dnd5eapi.co" ++ monster_data.url.getD "" }
    token_count := self.count_tokens full_text }

/-- Model of a raw rule-section record. -/
structure RuleData where
  name : Option String
  desc : Option String
  url : Option String

/-- Metadata attached to a rule chunk.  `chunk_index` is only present on the
chunks of a split section (`none` models the absent key of the no-split
branch). -/
structure RuleMeta where
  type : String
  sectionName : String
  chunk_index : Option Nat
  source : String
  url : String
deriving DecidableEq

/-- One produced chunk of `chunk_rule_section`. -/
structure RuleChunk where
  text : String
  metadata : RuleMeta
  token_count : Nat
deriving DecidableEq

/-- The full text assembled by `chunk_rule_section`:
`f"# {title}\n\n{desc}"`. -/
def ruleFullText (rule_data : RuleData) : String :=
  "# " ++ rule_data.name.getD "Unknown Rule" ++ "\n\n" ++ rule_data.desc.getD ""

/-- The start offsets produced by Python's `range(0, n, stride)` for
`stride > 0`: the arithmetic sequence `0, stride, 2*stride, …` of length
`⌈n / stride⌉`. -/
def pyRangeStarts (n stride : Nat) : List Nat :=
  List.range' 0 ((n + stride - 1) / stride) stride

/-- Source: `TextChunker.chunk_rule_section`.  The result is `none` exactly
when the source raises: Python's `range(0, n, step)` raises `ValueError` for
`step == 0`, which happens on the split path when `overlap == max_tokens`.
For a negative stride (`overlap > max_tokens`) Python's `range` is empty, so
the loop body never runs and the (empty) chunk list is returned.  On the
split path `chunk_index` is `len(chunks)` at append time, i.e. the emission
position, modelled through `List.enum`. -/
def TextChunker.chunk_rule_section (self : TextChunker) (rule_data : RuleData)
    (max_tokens : Nat) (overlap : Nat) : Option (List RuleChunk) :=
  let title := rule_data.name.getD "Unknown Rule"
  let full_text := ruleFullText rule_data
  let token_count := self.count_tokens full_text
  let url := "https://www.dnd5eapi.co" ++ rule_data.url.getD ""
  if token_count ≤ max_tokens then
    some [{ text := full_text
            metadata := { type := "rule", sectionName := title,
                          chunk_index := none, source := "SRD 5e", url := url }
            token_count := token_count }]
  else
    let tokens := self.encode full_text
    let stride : Int := (max_tokens : Int) - (overlap : Int)
    if stride = 0 then
      none
    else
      let starts := if 0 < stride then pyRangeStarts tokens.length stride.toNat
                    else []
      some (starts.enum.map (fun ji =>
        let chunk_tokens := (tokens.drop ji.2).take max_tokens
        { text := self.decode chunk_tokens
          metadata := { type := "rule", sectionName := title,
                        chunk_index := some ji.1, source := "SRD 5e", url := url }
          token_count := chunk_tokens.length }))

/-! ## ETL pipeline (src/backend/etl/pipeline.py) -/

/-- Model of one chunk dict as persisted in `all_chunks.json` and consumed by
the pipeline and the engine.  The heterogeneous per-type metadata dict is
modelled as an association list (first match wins, like a Python dict with
unique keys); all claim-relevant values are strings. -/
structure Chunk where
  text : String
  metadata : List (String × String)
  token_count : Nat
deriving DecidableEq

/-- Model of one entry of the persisted `metadata.json` sequence built by
`step_3_generate_embeddings`. -/
structure IndexedMeta where
  id : Nat
  metadata : List (String × String)
  token_count : Nat
deriving DecidableEq

/-- Source: `ETLPipeline.step_3_generate_embeddings`.  The embedding model is
the external collaborator `embed` (deterministic and order-preserving, one
vector per text, per the external contract); the batched
`self.embedding_model.encode(texts, batch_size=32)` call is therefore the map
of `embed` over the texts.  Persisting the two artifacts to disk is I/O and
is abstracted to returning the pair. -/
def step_3_generate_embeddings (embed : String → List ℚ) (chunks : List Chunk) :
    List (List ℚ) × List IndexedMeta :=
  let texts := chunks.map (fun c => c.text)
  let embeddings := texts.map embed
  let metadata := chunks.enum.map (fun ic =>
    { id := ic.1, metadata := ic.2.metadata, token_count := ic.2.token_count })
  (embeddings, metadata)

/-! ## RAG engine (src/backend/core/rag_engine.py) -/

/-- In-memory state of `RAGEngine` after `__init__`: the three loaded
artifacts plus the embedding model (the external collaborator `embed`). -/
structure RAGEngine where
  chunks : List Chunk
  embeddings : List (List ℚ)
  metadata : List IndexedMeta
  embed : String → List ℚ

/-- Source: `RAGEngine.__init__`.  File loading is abstracted to receiving
the decoded artifact values.  Note: the constructor stores the three
artifacts as loaded and performs no validation whatsoever — in particular
there is no length-equality check between `chunks`, `embeddings` and
`metadata`. -/
def RAGEngine.init (chunks : List Chunk) (embeddings : List (List ℚ))
    (metadata : List IndexedMeta) (embed : String → List ℚ) : RAGEngine :=
  { chunks := chunks, embeddings := embeddings, metadata := metadata,
    embed := embed }

/-- Dot product of two vectors (model of `np.dot` row · query). -/
def dot (a b : List ℚ) : ℚ :=
  (List.zipWith (fun x y => x * y) a b).sum

/-- Python list slicing `l[s:]` for an arbitrary (possibly negative) integer
start `s`: a negative start counts from the end (clamped at 0), a
non-negative start drops that many elements (clamped at the length). -/
def pySliceFrom {α : Type} (s : Int) (l : List α) : List α :=
  if s < 0 then l.drop (l.length - (-s).toNat) else l.drop s.toNat

/-- Model of `np.argsort`: the indices `0 … n-1` sorted so that the
similarity values are non-decreasing along the result.  `np.argsort`'s order
among equal values is unspecified (its default sort is not stable); the model
fixes the stable order.  Every property proved below is independent of the
tie order except where tied scores themselves are the point, and there the
tied entries have equal scores under any tie order. -/
def argsortAsc (xs : List ℚ) : List Nat :=
  List.insertionSort (fun i j => xs.getD i 0 ≤ xs.getD j 0) (List.range xs.length)

/-- Source: `RAGEngine.retrieve`.
`query_embedding = self.embedding_model.encode([query])[0]`;
`similarities = np.dot(self.embeddings, query_embedding)`;
`top_indices = np.argsort(similarities)[-top_k:][::-1]`; then each index is
resolved against `self.chunks` (the model's `getD` stands for the Python
index access, total on an aligned index, the only state the claims range
over). -/
def RAGEngine.retrieve (self : RAGEngine) (query : String) (top_k : Int) :
    List (Chunk × ℚ) :=
  let query_embedding := self.embed query
  let similarities := self.embeddings.map (fun row => dot row query_embedding)
  let top_indices := (pySliceFrom (-top_k) (argsortAsc similarities)).reverse
  top_indices.map (fun idx =>
    (self.chunks.getD idx { text := "", metadata := [], token_count := 0 },
     similarities.getD idx 0))

/-- One record of the `sources` list built by `generate_answer`. -/
structure Source where
  doc_id : Nat
  type : String
  name : String
  source : String
  url : String
  relevance_score : ℚ
deriving DecidableEq

/-- Result value of `generate_answer`. -/
structure GenResponse where
  answer : String
  sources : List Source
  context_used : Nat
deriving DecidableEq

/-- Banker's rounding (Python's `round` ties-to-even) of a rational to an
integer. -/
def roundHalfEven (x : ℚ) : Int :=
  let f := ⌊x⌋
  let r := x - (f : ℚ)
  if r < 1/2 then f
  else if 1/2 < r then f + 1
  else if f % 2 = 0 then f else f + 1

/-- Python's `round(score, 3)`. -/
def round3 (x : ℚ) : ℚ :=
  (roundHalfEven (x * 1000) : ℚ) / 1000

/-- The source record built for one context chunk (1-based `doc_id` `i`).
`metadata['type']` and `metadata['source']` are plain subscripts — a missing
key raises `KeyError`, modelled by `none`; `name` and `url` use `.get` with
defaults `'Unknown'` and `''`. -/
def buildSource (i : Nat) (c : Chunk) (score : ℚ) : Option Source :=
  match c.metadata.lookup "type", c.metadata.lookup "source" with
  | some t, some s =>
      some { doc_id := i, type := t,
             name := (c.metadata.lookup "name").getD "Unknown",
             source := s,
             url := (c.metadata.lookup "url").getD "",
             relevance_score := round3 score }
  | _, _ => none

/-- The `sources` accumulation of the loop in `generate_answer`, with the
1-based counter `i` threaded through; the first missing required key aborts
the whole call (Python raises out of the loop). -/
def buildSources (i : Nat) : List (Chunk × ℚ) → Option (List Source)
  | [] => some []
  | (c, score) :: rest =>
      match buildSource i c score, buildSources (i + 1) rest with
      | some s, some tail => some (s :: tail)
      | _, _ => none

/-- The `context_parts` accumulation of the loop in `generate_answer`:
`"[Documento i]"`, the chunk text, and an empty line per chunk. -/
def contextParts (i : Nat) : List (Chunk × ℚ) → List String
  | [] => []
  | (c, _) :: rest =>
      ("[Documento " ++ toString i ++ "]") :: c.text :: "" :: contextParts (i + 1) rest

/-- Source: `RAGEngine._build_prompt` (the fixed template, verbatim). -/
def build_prompt (query context : String) : String :=
  "You are Sage, a knowledgeable assistant for Dungeons & Dragons 5th Edition rules.\n\nYour role is to answer questions about D&D rules, spells, and monsters using ONLY the information provided in the documents below.\n\nIMPORTANT RULES:\n1. Base your answer STRICTLY on the provided documents\n2. If the answer is not in the documents, say \"I don\x27t have that information in my current knowledge base\"\n3. Cite document numbers when making specific claims (e.g., \"According to Document 1...\")\n4. Be concise but complete\n5. Use clear, accessible language\n\nDOCUMENTS:\n"
  ++ context ++ "\n\nQUESTION: " ++ query ++ "\n\nANSWER:"

/-- Source: `RAGEngine._call_llm`.  The external POST to the generation model
either succeeds with a response body (whose `response` field, default `''`,
is stripped) or fails with a transport error (`requests.RequestException`,
including timeouts); `outcome` is that result.  On failure the error text is
returned inline, prefixed `"Error calling LLM: "` — nothing is raised. -/
def call_llm (outcome : Except String String) (_prompt : String)
    (_temperature : ℚ) : String :=
  match outcome with
  | Except.ok r => r.trim
  | Except.error e => "Error calling LLM: " ++ e

/-- Source: `RAGEngine.generate_answer`.  `outcome` is the transport result
of the single external generation call (see `call_llm`).  The loop over
`context_chunks` builds the context blocks and the `sources` records; a chunk
whose metadata lacks `'type'` or `'source'` raises `KeyError` in the source,
modelled by propagating `none`. -/
def RAGEngine.generate_answer (outcome : Except String String) (query : String)
    (context_chunks : List (Chunk × ℚ)) (temperature : ℚ) :
    Option GenResponse := do
  let sources ← buildSources 1 context_chunks
  let context := String.intercalate "\n" (contextParts 1 context_chunks)
  let answer := call_llm outcome (build_prompt query context) temperature
  pure { answer := answer, sources := sources,
         context_used := context_chunks.length }

/-! ## Concrete fixtures used by the closed statements -/

/-- Concrete tokenizer for closed evaluations: one token per character
(a legitimate instance of the tokenizer interface). -/
def charChunker : TextChunker :=
  { encode := fun s => s.data.map Char.toNat
    decode := fun l => String.mk (l.map Char.ofNat) }

/-- Concrete embedding model returning the one-dimensional vector `[1]` for
every text, so that a row's similarity equals its single coordinate. -/
def specEmbed : String → List ℚ :=
  fun _ => [1]

/-- Minimal well-formed chunk metadata (has the required keys). -/
def okMeta : List (String × String) :=
  [("type", "rule"), ("source", "SRD 5e")]

/-- Corpus of 5 chunks for the retrieval scenario. -/
def scenarioChunks : List Chunk :=
  [{ text := "c0", metadata := okMeta, token_count := 1 },
   { text := "c1", metadata := okMeta, token_count := 1 },
   { text := "c2", metadata := okMeta, token_count := 1 },
   { text := "c3", metadata := okMeta, token_count := 1 },
   { text := "c4", metadata := okMeta, token_count := 1 }]

/-- Embedding rows whose dot products with the query vector `[1]` are
`[0.9, 0.1, 0.5, 0.7, 0.2]`. -/
def scenarioEmbeddings : List (List ℚ) :=
  [[9/10], [1/10], [1/2], [7/10], [1/5]]

/-- The loaded 5-chunk engine of the retrieval scenario. -/
def scenarioEngine : RAGEngine :=
  RAGEngine.init scenarioChunks scenarioEmbeddings
    ((step_3_generate_embeddings specEmbed scenarioChunks).2) specEmbed

/-- Two-chunk engine whose two rows have the same similarity against every
query: both scores are `1`. -/
def tieEngine : RAGEngine :=
  RAGEngine.init
    [{ text := "t0", metadata := okMeta, token_count := 1 },
     { text := "t1", metadata := okMeta, token_count := 1 }]
    [[1], [1]]
    ((step_3_generate_embeddings specEmbed
      [{ text := "t0", metadata := okMeta, token_count := 1 },
       { text := "t1", metadata := okMeta, token_count := 1 }]).2)
    specEmbed

/-- Rule section of exactly 1100 tokens under `charChunker`
(`"# R\n\n"` = 5 characters, plus 1095 characters of body). -/
def bigRule : RuleData :=
  { name := some "R", desc := some (String.mk (List.replicate 1095 'a')),
    url := none }

/-- Rule section far below the token limit. -/
def smallRule : RuleData :=
  { name := some "S", desc := some "tiny", url := none }

/-! ## Shared lemmas -/

theorem argsortAsc_length (xs : List ℚ) : (argsortAsc xs).length = xs.length := by
  unfold argsortAsc
  rw [(List.perm_insertionSort _ _).length_eq, List.length_range]

theorem argsortAsc_perm (xs : List ℚ) :
    List.Perm (argsortAsc xs) (List.range xs.length) :=
  List.perm_insertionSort _ _

theorem argsortAsc_sorted (xs : List ℚ) :
    List.Sorted (fun i j => xs.getD i 0 ≤ xs.getD j 0) (argsortAsc xs) := by
  haveI : IsTotal Nat (fun i j => xs.getD i 0 ≤ xs.getD j 0) :=
    ⟨fun a b => le_total _ _⟩
  haveI : IsTrans Nat (fun i j => xs.getD i 0 ≤ xs.getD j 0) :=
    ⟨fun _ _ _ hab hbc => le_trans hab hbc⟩
  exact List.sorted_insertionSort _ _

theorem map_getD_range {α : Type} (l : List α) (d : α) :
    (List.range l.length).map (fun i => l.getD i d) = l := by
  apply List.ext_getElem (by simp)
  intro i h1 h2
  simp [List.getD_eq_getElem?_getD, List.getElem?_eq_getElem h2]

theorem retrieve_eq (e : RAGEngine) (q : String) (k : Int) :
    e.retrieve q k
      = ((pySliceFrom (-k)
            (argsortAsc (e.embeddings.map (fun row => dot row (e.embed q))))).reverse).map
          (fun idx =>
            (e.chunks.getD idx { text := "", metadata := [], token_count := 0 },
             (e.embeddings.map (fun row => dot row (e.embed q))).getD idx 0)) :=
  rfl

/-! ## Claim theorems -/

/-- C2.  The claim states that a length mismatch between the chunk
collection, the embedding matrix rows and the metadata sequence is detected
at load time by an explicit length-equality check that fails fast.  The code
has no such check: `RAGEngine.__init__` stores the three artifacts exactly as
loaded, and construction succeeds even when 1 chunk is loaded against 2
embedding rows and 2 metadata entries — the engine state simply holds the
misaligned artifacts. -/
theorem c2_no_load_time_length_check :
    (RAGEngine.init
        [{ text := "only chunk", metadata := okMeta, token_count := 2 }]
        [[1], [2]]
        [{ id := 0, metadata := okMeta, token_count := 2 },
         { id := 1, metadata := okMeta, token_count := 3 }]
        specEmbed).chunks.length = 1
    ∧ (RAGEngine.init
        [{ text := "only chunk", metadata := okMeta, token_count := 2 }]
        [[1], [2]]
        [{ id := 0, metadata := okMeta, token_count := 2 },
         { id := 1, metadata := okMeta, token_count := 3 }]
        specEmbed).embeddings.length = 2
    ∧ (RAGEngine.init
        [{ text := "only chunk", metadata := okMeta, token_count := 2 }]
        [[1], [2]]
        [{ id := 0, metadata := okMeta, token_count := 2 },
         { id := 1, metadata := okMeta, token_count := 3 }]
        specEmbed).chunks.length
      ≠ (RAGEngine.init
        [{ text := "only chunk", metadata := okMeta, token_count := 2 }]
        [[1], [2]]
        [{ id := 0, metadata := okMeta, token_count := 2 },
         { id := 1, metadata := okMeta, token_count := 3 }]
        specEmbed).embeddings.length := by
  refine ⟨rfl, rfl, by decide⟩

/-- Evaluation lemma: on `tieEngine` the similarity list is `[1, 1]` for
every query, so `retrieve` is the slice-and-reverse of `argsortAsc [1, 1]`
(the `Rat` arithmetic of the dot products is normalized away here; the
remaining expression is kernel-evaluable). -/
theorem tieEngine_retrieve_eval (q : String) (k : Int) :
    tieEngine.retrieve q k
      = (pySliceFrom (-k) (argsortAsc [1, 1])).reverse.map
          (fun idx =>
            (tieEngine.chunks.getD idx
               { text := "", metadata := [], token_count := 0 },
             ([1, 1] : List ℚ).getD idx 0)) := by
  rw [retrieve_eq]
  norm_num [tieEngine, RAGEngine.init, specEmbed, dot]

/-- C7.  The claim states that `retrieve` rejects `top_k ≤ 0` as a caller
error before any similarity computation.  The code performs no validation:
with `top_k = 0` the slice `[-0:]` is the whole argsort array, so the
similarity computation runs and ALL chunks are returned (here: both chunks of
a 2-chunk index, scores included); with `top_k = -1` the slice drops the
lowest-scored entry and returns the rest. -/
theorem c7_top_k_not_validated :
    (tieEngine.retrieve "any question" 0).length = 2
    ∧ (tieEngine.retrieve "any question" 0).map Prod.snd = [1, 1]
    ∧ (tieEngine.retrieve "any question" (-1)).length = 1 := by
  rw [tieEngine_retrieve_eval, tieEngine_retrieve_eval]
  refine ⟨by decide, by decide, by decide⟩

/-- C1 counterexample.  The claim asserts the returned sequence is sorted
STRICTLY descending by score for every loaded index and query.  On an index
with two rows of equal similarity (both scores `1`), `retrieve` returns both
chunks with equal scores, which is not strictly descending. -/
theorem c1_strict_descent_counterexample :
    (tieEngine.retrieve "q" 2).map Prod.snd = [1, 1]
    ∧ ¬ List.Pairwise (fun a b : Chunk × ℚ => b.2 < a.2)
        (tieEngine.retrieve "q" 2) := by
  rw [tieEngine_retrieve_eval]
  refine ⟨by decide, by decide⟩

/-- Evaluation lemma: on `scenarioEngine` the similarity list is the known
dot-product list `[0.9, 0.1, 0.5, 0.7, 0.2]` for every query. -/
theorem scenarioEngine_retrieve_eval (q : String) (k : Int) :
    scenarioEngine.retrieve q k
      = (pySliceFrom (-k)
           (argsortAsc [9/10, 1/10, 1/2, 7/10, 1/5])).reverse.map
          (fun idx =>
            (scenarioChunks.getD idx
               { text := "", metadata := [], token_count := 0 },
             ([9/10, 1/10, 1/2, 7/10, 1/5] : List ℚ).getD idx 0)) := by
  rw [retrieve_eq]
  norm_num [scenarioEngine, RAGEngine.init, specEmbed, scenarioEmbeddings, dot]

/-- Evaluation lemma: `argsort` of the scenario similarities, ascending. -/
theorem scenario_argsort_eval :
    argsortAsc [9/10, 1/10, 1/2, 7/10, 1/5] = [1, 4, 2, 3, 0] := by
  norm_num [argsortAsc, List.insertionSort, List.orderedInsert, List.range,
    List.range.loop, List.getD, List.get?]

/-- C1 (amended).  For every loaded index with aligned chunk/embedding
artifacts and every query, `retrieve` with `top_k ≥ 1` returns
`min(top_k, N)` pairs sorted DESCENDING (non-increasing — strictness fails
exactly on tied scores, see the counterexample) by score; when `top_k ≥ N`
all `N` chunks are returned (a permutation of the whole corpus).  For the
5-chunk corpus with dot products `[0.9, 0.1, 0.5, 0.7, 0.2]`, `top_k = 3`
returns the chunks scored `[0.9, 0.7, 0.5]` in that order, and `top_k = 10`
returns all 5 chunks. -/
theorem c1_retrieve_ordering (e : RAGEngine) (q : String) (k : Int)
    (hal : e.chunks.length = e.embeddings.length) (hk : 1 ≤ k) :
    ((e.retrieve q k).length = min k.toNat e.chunks.length
     ∧ List.Pairwise (fun a b : Chunk × ℚ => b.2 ≤ a.2) (e.retrieve q k)
     ∧ ((e.chunks.length : Int) ≤ k →
          List.Perm ((e.retrieve q k).map Prod.fst) e.chunks))
    ∧ ((scenarioEngine.retrieve "q" 3).map (fun p => (p.1.text, p.2))
         = [("c0", 9/10), ("c3", 7/10), ("c2", 1/2)]
       ∧ (scenarioEngine.retrieve "q" 10).length = 5) := by
  constructor
  · have hlen : (e.embeddings.map (fun row => dot row (e.embed q))).length
        = e.embeddings.length := List.length_map _ _
    have hA : (argsortAsc (e.embeddings.map (fun row => dot row (e.embed q)))).length
        = e.embeddings.length := by rw [argsortAsc_length, hlen]
    have hneg : (-k) < 0 := by omega
    have hre : e.retrieve q k
        = ((argsortAsc (e.embeddings.map (fun row => dot row (e.embed q)))).drop
            ((argsortAsc (e.embeddings.map (fun row => dot row (e.embed q)))).length
              - k.toNat)).reverse.map
            (fun idx =>
              (e.chunks.getD idx { text := "", metadata := [], token_count := 0 },
               (e.embeddings.map (fun row => dot row (e.embed q))).getD idx 0)) := by
      rw [retrieve_eq]
      simp [pySliceFrom, hneg]
    refine ⟨?_, ?_, ?_⟩
    · rw [hre]
      simp only [List.length_map, List.length_reverse, List.length_drop]
      omega
    · rw [hre]
      refine List.pairwise_map.mpr (List.pairwise_reverse.mpr ?_)
      exact List.Pairwise.sublist (List.drop_sublist _ _)
        (argsortAsc_sorted (e.embeddings.map (fun row => dot row (e.embed q))))
    · intro hkN
      have hd0 : (argsortAsc (e.embeddings.map (fun row => dot row (e.embed q)))).length
          - k.toNat = 0 := by omega
      rw [hre, hd0, List.drop_zero, List.map_map]
      have hcomp : (Prod.fst ∘ (fun idx =>
            (e.chunks.getD idx { text := "", metadata := [], token_count := 0 },
             (e.embeddings.map (fun row => dot row (e.embed q))).getD idx 0)))
          = fun idx =>
              e.chunks.getD idx { text := "", metadata := [], token_count := 0 } :=
        rfl
      rw [hcomp]
      have hperm : List.Perm
          (argsortAsc (e.embeddings.map (fun row => dot row (e.embed q)))).reverse
          (List.range e.chunks.length) := by
        refine (List.reverse_perm _).trans ?_
        have := argsortAsc_perm (e.embeddings.map (fun row => dot row (e.embed q)))
        rwa [hlen, ← hal] at this
      have hm := hperm.map
        (fun idx => e.chunks.getD idx { text := "", metadata := [], token_count := 0 })
      rwa [map_getD_range e.chunks] at hm
  · constructor
    · rw [scenarioEngine_retrieve_eval, scenario_argsort_eval]
      norm_num [pySliceFrom, scenarioChunks, List.getD, List.get?]
      rfl
    · rw [scenarioEngine_retrieve_eval, scenario_argsort_eval]
      norm_num [pySliceFrom]

/-- C1 witness: the amended theorem applied to the concrete 5-chunk scenario
engine with `top_k = 3`. -/
theorem c1_witness :
    (scenarioEngine.retrieve "q" 3).length
      = min (Int.toNat 3) scenarioEngine.chunks.length :=
  (c1_retrieve_ordering scenarioEngine "q" 3 (by decide) (by decide)).1.1

set_option maxRecDepth 10000 in
/-- C3.  The claim states that `overlap ≥ max_tokens` makes
`chunk_rule_section` fail fast with a configuration error for EVERY input
record.  The code does nothing of the sort: with `overlap = 600 >
max_tokens = 512` a 1100-token section silently yields an EMPTY chunk list
(Python's `range` with a negative step is empty), and a short section is
chunked normally with no error at all; only the exact boundary
`overlap = max_tokens` on a long section raises — and that is an accidental
`ValueError` from `range(…, 0)`, not a checked configuration error. -/
theorem c3_bad_overlap_not_rejected :
    charChunker.chunk_rule_section bigRule 512 600 = some []
    ∧ (charChunker.chunk_rule_section smallRule 512 600).isSome = true
    ∧ charChunker.chunk_rule_section bigRule 512 512 = none := by
  refine ⟨by decide, by decide, by decide⟩

set_option maxRecDepth 10000 in
/-- C4.  For `overlap < max_tokens` the chunker never fails: a section of at
most `max_tokens` tokens yields exactly one chunk carrying the full text (and
no `chunk_index`); a longer section is split into windows of size
`max_tokens` taken at stride `max_tokens − overlap` (the last window may be
shorter), every emitted chunk's `token_count` is `≤ max_tokens`, and the
`j`-th emitted chunk carries `chunk_index = j`.  Concretely, a 1100-token
section with `max_tokens = 512, overlap = 50` yields exactly 3 windows of
token counts `[512, 512, 176]` (stride 462, final window shorter). -/
theorem c4_rule_windowing (ch : TextChunker) (rd : RuleData) (mt ov : Nat)
    (hov : ov < mt) :
    (∃ cs, ch.chunk_rule_section rd mt ov = some cs
      ∧ (ch.count_tokens (ruleFullText rd) ≤ mt →
           ∃ c, cs = [c] ∧ c.text = ruleFullText rd
             ∧ c.token_count = ch.count_tokens (ruleFullText rd)
             ∧ c.metadata.chunk_index = none)
      ∧ (mt < ch.count_tokens (ruleFullText rd) →
           cs.length
               = ((ch.encode (ruleFullText rd)).length + (mt - ov) - 1) / (mt - ov)
           ∧ ∀ (j : Nat) (hj : j < cs.length),
               (cs.get ⟨j, hj⟩).text
                   = ch.decode (((ch.encode (ruleFullText rd)).drop ((mt - ov) * j)).take mt)
               ∧ (cs.get ⟨j, hj⟩).token_count
                   = (((ch.encode (ruleFullText rd)).drop ((mt - ov) * j)).take mt).length
               ∧ (cs.get ⟨j, hj⟩).token_count ≤ mt
               ∧ (cs.get ⟨j, hj⟩).metadata.chunk_index = some j))
    ∧ (charChunker.chunk_rule_section bigRule 512 50).map
        (fun l => (l.length, l.map (fun c => c.token_count)))
      = some (3, [512, 512, 176]) := by
  have hstride_ne : ((mt : Int) - (ov : Int)) ≠ 0 := by omega
  have hstride_pos : (0 : Int) < (mt : Int) - (ov : Int) := by omega
  have htoNat : ((mt : Int) - (ov : Int)).toNat = mt - ov := by omega
  constructor
  · by_cases hc : ch.count_tokens (ruleFullText rd) ≤ mt
    · refine ⟨[{ text := ruleFullText rd,
                 metadata := { type := "rule",
                               sectionName := rd.name.getD "Unknown Rule",
                               chunk_index := none, source := "SRD 5e",
                               url := "https://www.dnd5eapi.co" ++ rd.url.getD "" },
                 token_count := ch.count_tokens (ruleFullText rd) }],
          ?_, ?_, ?_⟩
      · simp [TextChunker.chunk_rule_section, hc]
      · intro
        exact ⟨_, rfl, rfl, rfl, rfl⟩
      · intro hlt
        exact absurd hc (by omega)
    · refine ⟨((pyRangeStarts (ch.encode (ruleFullText rd)).length (mt - ov)).enum.map
          (fun ji =>
            { text := ch.decode (((ch.encode (ruleFullText rd)).drop ji.2).take mt)
              metadata := { type := "rule",
                            sectionName := rd.name.getD "Unknown Rule",
                            chunk_index := some ji.1, source := "SRD 5e",
                            url := "https://www.dnd5eapi.co" ++ rd.url.getD "" }
              token_count := (((ch.encode (ruleFullText rd)).drop ji.2).take mt).length })),
          ?_, ?_, ?_⟩
      · simp [TextChunker.chunk_rule_section, hc, hstride_ne, hstride_pos, htoNat]
      · intro h
        exact absurd h hc
      · intro hlt
        constructor
        · simp [pyRangeStarts, List.length_range']
        · intro j hj
          have hstarts : j < (pyRangeStarts (ch.encode (ruleFullText rd)).length (mt - ov)).length := by
            simpa using hj
          have hval : (pyRangeStarts (ch.encode (ruleFullText rd)).length (mt - ov))[j] = (mt - ov) * j := by
            simp [pyRangeStarts, List.getElem_range']
          refine ⟨?_, ?_, ?_, ?_⟩
          · simp only [List.get_eq_getElem, List.getElem_map, List.getElem_enum, hval]
          · simp only [List.get_eq_getElem, List.getElem_map, List.getElem_enum, hval]
          · simp only [List.get_eq_getElem, List.getElem_map, List.getElem_enum,
              List.length_take]
            omega
          · simp only [List.get_eq_getElem, List.getElem_map, List.getElem_enum]
  · decide

set_option maxRecDepth 10000 in
/-- C4 witness: the windowing theorem applied to the concrete 1100-token
section with `max_tokens = 512`, `overlap = 50`; the split yields 3 chunks. -/
theorem c4_witness :
    ∃ cs, charChunker.chunk_rule_section bigRule 512 50 = some cs
      ∧ cs.length = 3 := by
  obtain ⟨⟨cs, hcs, _, hsplit⟩, _⟩ :=
    c4_rule_windowing charChunker bigRule 512 50 (by omega)
  refine ⟨cs, hcs, ?_⟩
  have h1 := (hsplit (by decide)).1
  have h2 : ((charChunker.encode (ruleFullText bigRule)).length + (512 - 50) - 1)
      / (512 - 50) = 3 := by decide
  rw [h1, h2]

/-- Python's `//` (floor division) by 2 agrees with the mathematical floor of
the exact rational quotient. -/
theorem fdiv_two_eq_floor (z : Int) : Int.fdiv z 2 = ⌊(z : ℚ) / 2⌋ := by
  rw [Int.fdiv_eq_ediv z (by norm_num)]
  rw [show ((2 : ℚ)) = ((2 : ℕ) : ℚ) by norm_num]
  rw [Rat.floor_intCast_div_natCast]
  norm_num

/-- Concrete creature record (a goblin) for the C8 witness. -/
def exMonster : MonsterData :=
  { name := some "Goblin", size := some "Small", type := some "humanoid",
    alignment := some "neutral evil", armor_class := some [some 15],
    hit_points := some 7, speed := none, challenge_rating := some "0.25",
    strength := some 8, dexterity := some 14, constitution := some 10,
    intelligence := some 10, wisdom := some 8, charisma := some 8,
    special_abilities := none, actions := none,
    url := some "/api/monsters/goblin" }

/-- C8.  For every creature record and each of the six fixed ability scores,
`chunk_monster` renders the line for that ability into the joined chunk text,
with the modifier computed by exact integer floor division
`(score - 10) // 2` (which equals the rational floor `⌊(score − 10) / 2⌋`)
and printed with an explicit sign; score 9 renders `-1`, score 7 renders
`-2`, and a missing ability score degrades to the default 10 (rendered
`+0`) instead of failing. -/
theorem c8_monster_ability_modifiers (ch : TextChunker) (md : MonsterData)
    (a : String) (so : Option Int) (hmem : (a, so) ∈ abilityList md) :
    abilityLine a so ∈ monsterParts md
    ∧ (ch.chunk_monster md).text = String.intercalate "\n" (monsterParts md)
    ∧ Int.fdiv (so.getD 10 - 10) 2 = ⌊(((so.getD 10 : Int) : ℚ) - 10) / 2⌋
    ∧ abilityLine "strength" (some 9) = "- STRENGTH: 9 (-1)"
    ∧ abilityLine "wisdom" (some 7) = "- WISDOM: 7 (-2)"
    ∧ abilityLine "charisma" none = "- CHARISMA: 10 (+0)" := by
  refine ⟨?_, ?_, ?_, ?_, ?_, ?_⟩
  · have h1 : abilityLine a so ∈ (abilityList md).map (fun p => abilityLine p.1 p.2) :=
      List.mem_map.mpr ⟨(a, so), hmem, rfl⟩
    unfold monsterParts
    exact List.mem_append_left _ (List.mem_append_left _ (List.mem_append_right _ h1))
  · simp only [TextChunker.chunk_monster]
  · rw [fdiv_two_eq_floor]
    congr 1
    push_cast
    ring
  · decide
  · decide
  · decide

/-- C8 witness: strength 8 of the concrete goblin record appears as an
ability line of its chunk. -/
theorem c8_witness :
    abilityLine "strength" (some 8) ∈ monsterParts exMonster :=
  (c8_monster_ability_modifiers charChunker exMonster "strength" (some 8)
    (by decide)).1

/-- Concrete spell record whose `higher_level` key is present but empty
(falsy in Python). -/
def exSpellEmptyHL : SpellData :=
  { name := some "Magic Missile", level := some 1, school := some "Evocation",
    casting_time := some "1 action", range := some "120 feet",
    duration := some "Instantaneous", components := some ["V", "S"],
    desc := some ["You create three glowing darts of magical force."],
    higher_level := some [], url := some "/api/spells/magic-missile" }

/-- Spell record with every key missing. -/
def emptySpell : SpellData :=
  { name := none, level := none, school := none, casting_time := none,
    range := none, duration := none, components := none, desc := none,
    higher_level := none, url := none }

set_option maxRecDepth 10000 in
/-- C9.  A spell record whose `higher_level` is absent or empty (falsy)
produces exactly the output of the record without the key: no
"At Higher Levels" section is appended at all (for the concrete record with
an empty `higher_level` the chunk text contains no "At Higher Levels"
substring — not even an empty section), and a record with every simple field
missing still chunks successfully, degrading to the "Unknown" placeholders
(name → "Unknown Spell", school/casting time/range/duration → "Unknown",
level → 0). -/
theorem c9_spell_no_higher_level_section (ch : TextChunker) (sd : SpellData)
    (hhl : truthyList sd.higher_level = false) :
    spellParts sd = spellParts { sd with higher_level := none }
    ∧ (ch.chunk_spell sd).text
        = String.intercalate "\n" (spellParts { sd with higher_level := none })
    ∧ ¬ ("At Higher Levels".data <:+:
          (charChunker.chunk_spell exSpellEmptyHL).text.data)
    ∧ (charChunker.chunk_spell emptySpell).text
        = "# Unknown Spell\n**Level:** 0\n**School:** Unknown\n**Casting Time:** Unknown\n**Range:** Unknown\n**Duration:** Unknown\n**Components:** " := by
  have h0 : truthyList (none : Option (List String)) = false := rfl
  have h1 : spellParts sd = spellParts { sd with higher_level := none } := by
    simp [spellParts, hhl, h0]
  refine ⟨h1, ?_, ?_, ?_⟩
  · simp only [TextChunker.chunk_spell]
    rw [h1]
  · decide
  · decide

/-- C9 witness: the theorem applied to the concrete record with an empty
`higher_level` list. -/
theorem c9_witness :
    spellParts exSpellEmptyHL
      = spellParts { exSpellEmptyHL with higher_level := none } :=
  (c9_spell_no_higher_level_section charChunker exSpellEmptyHL (by decide)).1

/-! ## Lemmas about `generate_answer` -/

theorem buildSource_isSome_iff (i : Nat) (c : Chunk) (sc : ℚ) :
    (buildSource i c sc).isSome
      ↔ (c.metadata.lookup "type").isSome
        ∧ (c.metadata.lookup "source").isSome := by
  unfold buildSource
  cases h1 : c.metadata.lookup "type" <;>
    cases h2 : c.metadata.lookup "source" <;> simp

theorem buildSources_cons_isSome (i : Nat) (c : Chunk) (sc : ℚ)
    (tl : List (Chunk × ℚ)) :
    (buildSources i ((c, sc) :: tl)).isSome
      ↔ (buildSource i c sc).isSome ∧ (buildSources (i + 1) tl).isSome := by
  cases hb : buildSource i c sc <;> cases hbs : buildSources (i + 1) tl <;>
    simp [buildSources, hb, hbs]

theorem buildSources_isSome_iff (i : Nat) (l : List (Chunk × ℚ)) :
    (buildSources i l).isSome
      ↔ ∀ p ∈ l, (p.1.metadata.lookup "type").isSome
          ∧ (p.1.metadata.lookup "source").isSome := by
  induction l generalizing i with
  | nil => simp [buildSources]
  | cons hd tl ih =>
    obtain ⟨c, sc⟩ := hd
    rw [buildSources_cons_isSome, buildSource_isSome_iff, ih]
    simp

theorem buildSources_length (i : Nat) (l : List (Chunk × ℚ))
    (s : List Source) (h : buildSources i l = some s) : s.length = l.length := by
  induction l generalizing i s with
  | nil =>
    simp [buildSources] at h
    simp [← h]
  | cons hd tl ih =>
    obtain ⟨c, sc⟩ := hd
    cases hb : buildSource i c sc with
    | none => simp [buildSources, hb] at h
    | some v =>
      cases hbs : buildSources (i + 1) tl with
      | none => simp [buildSources, hb, hbs] at h
      | some tail =>
        simp [buildSources, hb, hbs] at h
        rw [← h]
        simp [ih (i + 1) tail hbs]

theorem generate_answer_eq (o : Except String String) (q : String)
    (chunks : List (Chunk × ℚ)) (t : ℚ) :
    RAGEngine.generate_answer o q chunks t
      = (buildSources 1 chunks).map (fun s =>
          { answer := call_llm o
              (build_prompt q (String.intercalate "\n" (contextParts 1 chunks))) t,
            sources := s, context_used := chunks.length }) := by
  unfold RAGEngine.generate_answer
  cases buildSources 1 chunks <;> rfl

/-- C5.  When the external generation call fails with a transport error
(timeouts included), `generate_answer` does not raise: provided every
supplied chunk's metadata carries the required `'type'`/`'source'` keys (the
shape every chunk built by this pipeline has), it returns a response whose
answer is exactly `"Error calling LLM: "` followed by the error text (in
particular it starts with `"Error calling LLM:"`), whose `sources` list has
one record per ranked chunk passed in (non-empty whenever chunks were
passed), and whose `context_used` equals the number of ranked chunks. -/
theorem c5_generate_answer_transport_error (e : String) (q : String)
    (chunks : List (Chunk × ℚ)) (t : ℚ)
    (hmeta : ∀ p ∈ chunks, (p.1.metadata.lookup "type").isSome
        ∧ (p.1.metadata.lookup "source").isSome) :
    ∃ r, RAGEngine.generate_answer (Except.error e) q chunks t = some r
      ∧ r.answer = "Error calling LLM: " ++ e
      ∧ (∃ rest, r.answer = "Error calling LLM:" ++ rest)
      ∧ r.sources.length = chunks.length
      ∧ (chunks ≠ [] → r.sources ≠ [])
      ∧ r.context_used = chunks.length := by
  have hs : (buildSources 1 chunks).isSome :=
    (buildSources_isSome_iff 1 chunks).mpr hmeta
  obtain ⟨s, hseq⟩ := Option.isSome_iff_exists.mp hs
  have hlen : s.length = chunks.length := buildSources_length 1 chunks s hseq
  refine ⟨{ answer := "Error calling LLM: " ++ e, sources := s,
            context_used := chunks.length },
          ?_, rfl, ⟨" " ++ e, ?_⟩, ?_, ?_, rfl⟩
  · rw [generate_answer_eq, hseq]
    simp [call_llm]
  · rw [← String.append_assoc,
      show ("Error calling LLM:" ++ " " : String) = "Error calling LLM: " from by decide]
  · simpa using hlen
  · intro hne hnil
    apply hne
    have h0 : chunks.length = 0 := by
      rw [← hlen]
      simpa using congrArg List.length hnil
    exact List.length_eq_zero.mp h0

/-- Well-formed chunk/score pair for the C5 witness. -/
def okChunkPair : Chunk × ℚ :=
  ({ text := "Fireball details", metadata := okMeta, token_count := 3 }, 1)

/-- C5 witness: the theorem applied to a concrete one-chunk context and a
concrete timeout error. -/
theorem c5_witness :
    ∃ r, RAGEngine.generate_answer (Except.error "timed out")
        "What is Fireball?" [okChunkPair] (3/10) = some r
      ∧ r.answer = "Error calling LLM: " ++ "timed out"
      ∧ r.context_used = 1 := by
  obtain ⟨r, h1, h2, _, _, _, h6⟩ :=
    c5_generate_answer_transport_error "timed out" "What is Fireball?"
      [okChunkPair] (3/10) (by decide)
  exact ⟨r, h1, h2, h6⟩

/-- Chunk whose metadata lacks the `'type'` key. -/
def noTypeChunk : Chunk :=
  { text := "t", metadata := [("source", "SRD 5e")], token_count := 1 }

/-- Chunk whose metadata lacks the `'source'` key. -/
def noSourceChunk : Chunk :=
  { text := "t", metadata := [("type", "spell")], token_count := 1 }

/-- Chunk with the required keys but no `'name'`/`'url'`. -/
def noNameUrlChunk : Chunk :=
  { text := "t", metadata := okMeta, token_count := 1 }

/-- C10.  `generate_answer` is total exactly on inputs whose every chunk
metadata carries both `'type'` and `'source'` (accessed by bare subscript in
the source, so a missing key is a `KeyError`); a chunk lacking either key
makes the call fail even when the LLM call would succeed, while missing
`'name'` defaults to `"Unknown"` and missing `'url'` to the empty string. -/
theorem c10_generate_answer_metadata_partiality :
    (∀ (o : Except String String) (q : String) (chunks : List (Chunk × ℚ)) (t : ℚ),
       (RAGEngine.generate_answer o q chunks t).isSome
         ↔ ∀ p ∈ chunks, (p.1.metadata.lookup "type").isSome
             ∧ (p.1.metadata.lookup "source").isSome)
    ∧ RAGEngine.generate_answer (Except.ok "the answer") "q" [(noTypeChunk, 1)] 0 = none
    ∧ RAGEngine.generate_answer (Except.ok "the answer") "q" [(noSourceChunk, 1)] 0 = none
    ∧ (RAGEngine.generate_answer (Except.ok "the answer") "q" [(noNameUrlChunk, 1)] 0).map
        (fun r => r.sources.map (fun s => (s.name, s.url)))
      = some [("Unknown", "")] := by
  refine ⟨?_, by decide, by decide, by decide⟩
  intro o q chunks t
  rw [generate_answer_eq, ← buildSources_isSome_iff 1 chunks]
  cases buildSources 1 chunks <;> simp

/-- C10 witness: a chunk without `'type'` makes the call fail. -/
theorem c10_witness :
    RAGEngine.generate_answer (Except.ok "the answer") "q" [(noTypeChunk, 1)] 0
      = none :=
  c10_generate_answer_metadata_partiality.2.1

/-- C6.  The index build over a chunk sequence is aligned by construction:
the matrix and the metadata sequence both have one entry per chunk, the
`i`-th metadata entry carries `id = i`, and row `i` of the matrix is the
embedding of chunk `i`'s text. -/
theorem c6_index_alignment (embed : String → List ℚ) (chunks : List Chunk) :
    (step_3_generate_embeddings embed chunks).1.length = chunks.length
    ∧ (step_3_generate_embeddings embed chunks).2.length = chunks.length
    ∧ ∀ (i : Nat) (h1 : i < (step_3_generate_embeddings embed chunks).1.length)
        (h2 : i < (step_3_generate_embeddings embed chunks).2.length)
        (h3 : i < chunks.length),
        ((step_3_generate_embeddings embed chunks).2.get ⟨i, h2⟩).id = i
        ∧ (step_3_generate_embeddings embed chunks).1.get ⟨i, h1⟩
            = embed ((chunks.get ⟨i, h3⟩).text) := by
  refine ⟨by simp [step_3_generate_embeddings],
          by simp [step_3_generate_embeddings], ?_⟩
  intro i h1 h2 h3
  constructor
  · simp [step_3_generate_embeddings]
  · simp [step_3_generate_embeddings]

/-- C6 witness: the alignment theorem applied to the concrete 5-chunk corpus
at index 0. -/
theorem c6_witness :
    ((step_3_generate_embeddings specEmbed scenarioChunks).2.get
        ⟨0, by decide⟩).id = 0 :=
  ((c6_index_alignment specEmbed scenarioChunks).2.2 0 (by decide) (by decide)
    (by decide)).1
